import Mathlib

/-!
Verification of the adaptive guide-extraction core of the repository
(`crawler.py`): the `parse_html` pipeline, the `make_absolute_url` URL
resolver and their data model, together with the Site-Profile layer that
the specification describes.

The HTML document is modelled as a tree of element and text nodes
(mirroring the parsed `BeautifulSoup` tree); all Python string
operations used by the source (`strip`, `lower`, `startswith`,
substring membership, `isdigit`, `len`, slicing, `' '.join`) are given
explicit executable counterparts over `List Char` so that every
definition evaluates by kernel reduction.  Strings are treated at the
character level (the documents of interest are ASCII); `str.strip()`
is modelled as trimming the ASCII whitespace characters.
-/

set_option autoImplicit false

namespace Crawler

/-! ### Python string primitives -/

/-- ASCII whitespace test used to model `str.strip()`. -/
def isWs (c : Char) : Bool :=
  c = ' ' || c = '\t' || c = '\n' || c = '\r'

/-- Model of Python `str.strip()`: remove leading and trailing whitespace. -/
def pyStrip (s : String) : String :=
  ⟨(((s.data.dropWhile isWs).reverse).dropWhile isWs).reverse⟩

/-- Model of Python `str.lower()` (ASCII case folding). -/
def pyLower (s : String) : String :=
  ⟨s.data.map Char.toLower⟩

/-- Model of Python `s.startswith(p)`. -/
def pyStarts (s p : String) : Bool :=
  List.isPrefixOf p.data s.data

/-- Model of Python `needle in hay` (substring containment). -/
def occursIn (needle hay : String) : Bool :=
  go needle.data hay.data
where
  go (n : List Char) : List Char → Bool
    | [] => n.isEmpty
    | c :: rest => List.isPrefixOf n (c :: rest) || go n rest

/-- Model of Python `s[:n]` (take the first `n` characters). -/
def pyTake (n : Nat) (s : String) : String :=
  ⟨s.data.take n⟩

/-- Model of Python `str.isdigit()` for ASCII strings. -/
def pyIsdigit (s : String) : Bool :=
  !s.data.isEmpty && s.data.all Char.isDigit

/-- Model of Python `sep.join(parts)`. -/
def pyJoin (sep : String) : List String → String
  | [] => ""
  | [a] => a
  | a :: b :: rest => a ++ sep ++ pyJoin sep (b :: rest)

/-- Numeric value of a list of ASCII digits. -/
def digitsToNat (l : List Char) : Nat :=
  l.foldl (fun a c => a * 10 + (c.toNat - 48)) 0

/-- Model of Python `int(s)`: optional sign and decimal digits after
stripping whitespace; any other shape raises `ValueError`, modelled as
`none`. -/
def pyInt (s : String) : Option Int :=
  match (pyStrip s).data with
  | [] => none
  | '+' :: rest =>
      if !rest.isEmpty && rest.all Char.isDigit then some (digitsToNat rest) else none
  | '-' :: rest =>
      if !rest.isEmpty && rest.all Char.isDigit then some (-(digitsToNat rest : Int)) else none
  | l =>
      if l.all Char.isDigit then some (digitsToNat l) else none

/-- ASCII apostrophe, used when modelling Python `str(list)`. -/
def squote : String := ⟨[Char.ofNat 39]⟩

/-- Model of Python `str` applied to a list of strings, as in
`str(img_class)`: renders `[` `'item'` … `]` separated by `, `. -/
def pyStrList (l : List String) : String :=
  "[" ++ pyJoin ", " (l.map (fun s => squote ++ s ++ squote)) ++ "]"

/-! ### Document model

A parsed HTML document is a forest of nodes.  To keep all recursions
structural (so that concrete documents evaluate inside the kernel),
the children of an element are a `NodeList` rather than a `List Node`.
-/

mutual

/-- A node of the parsed HTML tree: a text node, or an element with a
tag name, a class-token list, an optional `id`, further attributes and
children.  This mirrors the `BeautifulSoup` view used by the source:
`class` is token-valued, every other attribute is string-valued. -/
inductive Node where
  | text (s : String)
  | elem (tag : String) (classes : List String) (idAttr : Option String)
      (attrs : List (String × String)) (children : NodeList)

/-- A sequence of sibling nodes. -/
inductive NodeList where
  | nil
  | cons (n : Node) (l : NodeList)

end

/-- Build a `NodeList` from a `List Node`. -/
def NodeList.ofList : List Node → NodeList
  | [] => .nil
  | n :: l => .cons n (NodeList.ofList l)

/-- Convenient element constructor taking its children as a `List`. -/
def Node.el (tag : String) (classes : List String) (idAttr : Option String)
    (attrs : List (String × String)) (children : List Node) : Node :=
  Node.elem tag classes idAttr attrs (NodeList.ofList children)

/-- Tag name of a node (`""` for text nodes, which never match a tag query). -/
def Node.tagOf : Node → String
  | .text _ => ""
  | .elem t _ _ _ _ => t

/-- Class-token list of a node (`BeautifulSoup`'s `el.get('class', [])`). -/
def Node.classesOf : Node → List String
  | .text _ => []
  | .elem _ c _ _ _ => c

/-- The `id` attribute of a node, when present. -/
def Node.idOf : Node → Option String
  | .text _ => none
  | .elem _ _ i _ _ => i

/-- Children of a node (text nodes have none). -/
def Node.childrenOf : Node → NodeList
  | .text _ => .nil
  | .elem _ _ _ _ cs => cs

/-- Look up a (non-`class`, non-`id`) attribute, as `el.get(k)`. -/
def Node.attr? : Node → String → Option String
  | .text _, _ => none
  | .elem _ _ _ attrs _, k => (attrs.find? (fun kv => kv.1 == k)).map (·.2)

/-- Look up an attribute with a default, as `el.get(k, d)`. -/
def Node.attrD (n : Node) (k d : String) : String :=
  (n.attr? k).getD d

/-- First attribute value among `keys` that is present and non-empty,
modelling Python's `el.get(a) or el.get(b) or …` chains. -/
def firstTruthyAttr (n : Node) : List String → Option String
  | [] => none
  | k :: rest =>
      match n.attr? k with
      | some v => if v ≠ "" then some v else firstTruthyAttr n rest
      | none => firstTruthyAttr n rest

mutual

/-- All text-node strings of a subtree, in document order
(`BeautifulSoup`'s `strings` of one node). -/
def textsNode : Node → List String
  | .text s => [s]
  | .elem _ _ _ _ cs => textsNL cs

/-- All text-node strings of a forest, in document order. -/
def textsNL : NodeList → List String
  | .nil => []
  | .cons n l => textsNode n ++ textsNL l

end

/-- Model of `node.get_text(separator=sep, strip=True)`: each descendant
string stripped, empties dropped, the rest joined by `sep`. -/
def getText (sep : String) (n : Node) : String :=
  pyJoin sep (((textsNode n).map pyStrip).filter (fun t => t ≠ ""))

/-- Model of `tag.string`: the single descendant string reached through
unique children, if any. -/
def nodeString : Node → Option String
  | .text s => some s
  | .elem _ _ _ _ (.cons c .nil) => nodeString c
  | .elem _ _ _ _ _ => none

mutual

/-- All nodes of a subtree satisfying `p`, in document (pre-)order,
the root included — the traversal underlying `find_all`. -/
def findAllNode (p : Node → Bool) : Node → List Node
  | .text s => if p (.text s) then [.text s] else []
  | .elem t c i a cs =>
      (if p (.elem t c i a cs) then [.elem t c i a cs] else []) ++ findAllNL p cs

/-- All nodes of a forest satisfying `p`, in document order. -/
def findAllNL (p : Node → Bool) : NodeList → List Node
  | .nil => []
  | .cons n l => findAllNode p n ++ findAllNL p l

end

/-- Model of `soup.find_all(…)` over the whole document (a forest). -/
def findAllDoc (p : Node → Bool) (doc : NodeList) : List Node :=
  findAllNL p doc

/-- Model of `el.find_all(…)`: matching descendants of a node, the node
itself excluded. -/
def findDesc (p : Node → Bool) (n : Node) : List Node :=
  findAllNL p n.childrenOf

/-- Model of `soup.find(…)`: first match in document order. -/
def findDoc (p : Node → Bool) (doc : NodeList) : Option Node :=
  (findAllDoc p doc).head?

/-- Model of `el.find(…)` restricted to descendants. -/
def findIn (p : Node → Bool) (n : Node) : Option Node :=
  (findDesc p n).head?

/-! ### Node predicates used by the source's selectors -/

/-- Tag-name match (text nodes never match). -/
def isTag (t : String) (n : Node) : Bool :=
  n.tagOf == t && !(n.tagOf == "")

/-- Membership of a class token, `BeautifulSoup`'s `{'class': c}` match. -/
def hasClassTok (c : String) (n : Node) : Bool :=
  n.classesOf.contains c

/-- `find(t, {'class': c})`. -/
def tagCls (t c : String) (n : Node) : Bool :=
  isTag t n && hasClassTok c n

/-- `find(t, {'id': i})` (exact id match). -/
def tagId (t i : String) (n : Node) : Bool :=
  isTag t n && (n.idOf == some i)

/-- `find(t, {k: v})` for a plain string-valued attribute. -/
def tagAttrEq (t k v : String) (n : Node) : Bool :=
  isTag t n && (n.attr? k == some v)

/-- `find(t, {k: True})`: attribute present with any value. -/
def tagAttrPresent (t k : String) (n : Node) : Bool :=
  isTag t n && (n.attr? k).isSome

/-- CSS `[class*=sub]`: the serialized class attribute contains `sub`. -/
def clsAttrHas (sub : String) (n : Node) : Bool :=
  !n.classesOf.isEmpty && occursIn sub (pyJoin " " n.classesOf)

/-- CSS `[id*=sub]`: the id attribute contains `sub`. -/
def idAttrHas (sub : String) (n : Node) : Bool :=
  match n.idOf with
  | some i => occursIn sub i
  | none => false

/-! ### URL resolver

Model of the fragment of `urllib.parse` used by `make_absolute_url`:
`urlparse(url).netloc` and `urljoin(base, url)` (CPython 3 semantics),
restricted to URLs without query, fragment or params components —
the shapes the pipeline feeds it. -/

/-- Split a character list at the first `':'`, if any. -/
def splitAtColon : List Char → Option (List Char × List Char)
  | [] => none
  | ':' :: rest => some ([], rest)
  | c :: rest => (splitAtColon rest).map (fun p => (c :: p.1, p.2))

/-- Characters allowed in a URL scheme after the leading letter. -/
def isSchemeChar (c : Char) : Bool :=
  c.isAlpha || c.isDigit || c = '+' || c = '-' || c = '.'

/-- Split off a leading `scheme:` when well-formed (first character a
letter, all scheme characters); the scheme is lowercased, as in
`urllib.parse`. -/
def pySplitScheme (url : String) : String × String :=
  match splitAtColon url.data with
  | some (c :: pre, rest) =>
      if c.isAlpha && (c :: pre).all isSchemeChar then
        (⟨(c :: pre).map Char.toLower⟩, ⟨rest⟩)
      else ("", url)
  | _ => ("", url)

/-- Character terminating a netloc component. -/
def endsNetloc (c : Char) : Bool :=
  c = '/' || c = '?' || c = '#'

/-- Split `//netloc…` off the scheme-less remainder of a URL. -/
def netlocSplit (rest : List Char) : String × String :=
  match rest with
  | '/' :: '/' :: tail =>
      (⟨tail.takeWhile (fun c => !endsNetloc c)⟩, ⟨tail.dropWhile (fun c => !endsNetloc c)⟩)
  | _ => ("", ⟨rest⟩)

/-- Model of `urlparse(url)` returning `(scheme, netloc, path)`. -/
def pyUrlparse (url : String) : String × String × String :=
  let (scheme, rest) := pySplitScheme url
  let (netloc, path) := netlocSplit rest.data
  (scheme, netloc, path)

/-- The `netloc` component of `urlparse(url)`. -/
def pyNetloc (url : String) : String :=
  (pyUrlparse url).2.1

/-- Schemes treated as relative-capable by `urllib.parse.urljoin`. -/
def usesRelative : List String :=
  ["", "ftp", "http", "gopher", "nntp", "imap", "wais", "file", "https",
   "shttp", "mms", "prospero", "rtsp", "rtspu", "sftp", "svn", "svn+ssh",
   "ws", "wss"]

/-- Schemes carrying a netloc in `urllib.parse`. -/
def usesNetloc : List String :=
  ["", "ftp", "http", "gopher", "nntp", "telnet", "imap", "wais", "file",
   "mms", "https", "shttp", "snews", "prospero", "rtsp", "rtspu", "rsync",
   "svn", "svn+ssh", "sftp", "nfs", "git", "git+ssh", "ws", "wss"]

/-- Model of `urlunparse` on `(scheme, netloc, path)`. -/
def pyUrlunparse (scheme netloc path : String) : String :=
  let url :=
    if netloc ≠ "" ∨ pyStarts path "//" then
      "//" ++ netloc ++ (if path ≠ "" ∧ ¬ pyStarts path "/" then "/" ++ path else path)
    else path
  if scheme ≠ "" then scheme ++ ":" ++ url else url

/-- Split a path on `'/'`, as Python `path.split('/')`. -/
def splitSlash (s : String) : List String :=
  go s.data
where
  go : List Char → List String
    | [] => [""]
    | '/' :: rest => "" :: go rest
    | c :: rest =>
        match go rest with
        | g :: gs => (⟨[c]⟩ ++ g) :: gs
        | [] => [⟨[c]⟩]

/-- Drop the last segment of the base path unless it is empty
(`if base_parts[-1] != '': del base_parts[-1]`). -/
def dropLastSeg (l : List String) : List String :=
  match l.getLast? with
  | some s => if s ≠ "" then l.dropLast else l
  | none => l

/-- Keep the first and last segments, dropping empty middles
(`segments[1:-1] = filter(None, segments[1:-1])`). -/
def filterMiddle : List String → List String
  | [] => []
  | [a] => [a]
  | a :: rest => a :: (rest.dropLast.filter (fun s => s ≠ "")) ++ [rest.getLastD ""]

/-- Resolve `.` and `..` segments as the `urljoin` loop does. -/
def resolveSegs (segs : List String) : List String :=
  segs.foldl
    (fun acc seg =>
      if seg = ".." then acc.dropLast
      else if seg = "." then acc
      else acc ++ [seg]) []

/-- Model of `urllib.parse.urljoin(base, url)` on query-free URLs. -/
def pyUrljoin (base url : String) : String :=
  if base = "" then url
  else if url = "" then base
  else
    let (bscheme, bnetloc, bpath) := pyUrlparse base
    let (uscheme, unetloc, upath) := pyUrlparse url
    let scheme := if uscheme = "" then bscheme else uscheme
    if scheme ≠ bscheme ∨ scheme ∉ usesRelative then url
    else if scheme ∈ usesNetloc ∧ unetloc ≠ "" then pyUrlunparse scheme unetloc upath
    else
      let netloc := if scheme ∈ usesNetloc then bnetloc else unetloc
      if upath = "" then pyUrlunparse scheme netloc bpath
      else
        let baseParts := dropLastSeg (splitSlash bpath)
        let segs :=
          if pyStarts upath "/" then splitSlash upath
          else filterMiddle (baseParts ++ splitSlash upath)
        let resolved := resolveSegs segs
        let resolved :=
          if segs.getLast? = some "." ∨ segs.getLast? = some ".." then resolved ++ [""]
          else resolved
        let p := pyJoin "/" resolved
        pyUrlunparse scheme netloc (if p = "" then "/" else p)

/-- Embedding of `make_absolute_url` (crawler.py, lines 64–74): empty
input maps to `""`, a URL that already has a netloc is returned as is,
anything else is joined against the base URL. -/
def make_absolute_url (url : String) (base_url : String) : String :=
  if url = "" then ""
  else if pyNetloc url ≠ "" then url
  else pyUrljoin base_url url

/-! ### Record schema -/

/-- The raw guide record assembled by `parse_html` (the shape validated
by the `InstructableGuide` Pydantic model). -/
structure GuideData where
  title : String
  author : String
  supplies : List String
  steps : List String
  image_urls : List String
deriving DecidableEq

/-! ### Title extraction (crawler.py, lines 151–174)

The source loops over selectors, assigning `title` on every hit and
breaking only when the value is non-empty and differs from the
sentinel; a hit that fails the break test leaves a stale value behind,
exactly as modelled by the accumulator below. -/

/-- One step of the title selector loop: `none` when the selector found
nothing (the accumulator is kept), otherwise the freshly extracted
value replaces it; the loop stops when the value passes the break
test. -/
def chainStep (accept : String → Bool) (acc : String) : List (Option String) → String
  | [] => acc
  | none :: rest => chainStep accept acc rest
  | some v :: rest => if accept v then v else chainStep accept v rest

/-- Candidate title values in selector order: `h1.header-title`,
`h1.title`, any `h1`, `meta[property=og:title]` (its `content`,
stripped), the `<title>` tag. -/
def titleCandidates (doc : NodeList) : List (Option String) :=
  [(findDoc (tagCls "h1" "header-title") doc).map (getText ""),
   (findDoc (tagCls "h1" "title") doc).map (getText ""),
   (findDoc (isTag "h1") doc).map (getText ""),
   (findDoc (tagAttrEq "meta" "property" "og:title") doc).map
     (fun n => pyStrip (n.attrD "content" "")),
   (findDoc (isTag "title") doc).map (getText "")]

/-- Embedding of the title extraction: the chain value, or the sentinel
`"Unknown Title"` when the chain ends falsy or on the sentinel itself. -/
def extractTitle (doc : NodeList) : String :=
  let t := chainStep (fun v => v ≠ "" && v ≠ "Unknown Title") "" (titleCandidates doc)
  if t = "" ∨ t = "Unknown Title" then "Unknown Title" else t

/-! ### Author extraction (crawler.py, lines 177–198) -/

/-- Candidate author values in selector order: `a[rel=author]`,
`span.author-name`, `a.author`, `div.author`,
`meta[property=article:author]`. -/
def authorCandidates (doc : NodeList) : List (Option String) :=
  [(findDoc (tagAttrEq "a" "rel" "author") doc).map (getText ""),
   (findDoc (tagCls "span" "author-name") doc).map (getText ""),
   (findDoc (tagCls "a" "author") doc).map (getText ""),
   (findDoc (tagCls "div" "author") doc).map (getText ""),
   (findDoc (tagAttrEq "meta" "property" "article:author") doc).map
     (fun n => pyStrip (n.attrD "content" ""))]

/-- Embedding of the author extraction with its `"Unknown Author"`
sentinel. -/
def extractAuthor (doc : NodeList) : String :=
  let a := chainStep (fun v => v ≠ "") "" (authorCandidates doc)
  if a = "" then "Unknown Author" else a

/-! ### Supplies extraction (crawler.py, lines 201–222) -/

/-- First match among the supplies-section selectors. -/
def findFirstSel (doc : NodeList) : List (Node → Bool) → Option Node
  | [] => none
  | p :: rest =>
      match findDoc p doc with
      | some n => some n
      | none => findFirstSel doc rest

/-- The supplies container: `section#supplies`, `div.supplies-list`,
`div.supplies`, `ul.supplies`, `div#supplies-list` — first hit wins. -/
def suppliesSection (doc : NodeList) : Option Node :=
  findFirstSel doc
    [tagId "section" "supplies", tagCls "div" "supplies-list",
     tagCls "div" "supplies", tagCls "ul" "supplies",
     tagId "div" "supplies-list"]

/-- Embedding of the supplies extraction: the non-empty stripped texts
of the section's `<li>` items, or `[]` without a section. -/
def extractSupplies (doc : NodeList) : List String :=
  match suppliesSection doc with
  | none => []
  | some sec =>
      ((findDesc (isTag "li") sec).map (getText "")).filter (fun t => t ≠ "")

/-! ### Step-container discovery (crawler.py, lines 229–276)

Three cascades are tried until one yields a non-empty list: the CSS
selector family, the `find_all` selector family, and the fuzzy
class/id substring scan over `div`/`article`/`section` elements. -/

/-- First non-empty candidate list. -/
def firstNonempty : List (List Node) → List Node
  | [] => []
  | l :: rest => if l.isEmpty then firstNonempty rest else l

/-- The fuzzy scan: any `div`, `article` or `section` whose class
tokens or id contain `step` case-insensitively. -/
def fuzzyStepNodes (doc : NodeList) : List Node :=
  (findAllDoc (fun n => isTag "div" n || isTag "article" n || isTag "section" n) doc).filter
    (fun n =>
      n.classesOf.any (fun c => occursIn "step" (pyLower c)) ||
      (match n.idOf with
       | some i => occursIn "step" (pyLower i)
       | none => false))

/-- Embedding of the step-container cascade, in source order: the CSS
selectors `div.step`, `article.step`, `section.step`, `div.step-body`,
`div[data-step]`, `li.step`, `[class*=step]`, `[id*=step]`; then the
equivalent `find_all` selectors; then the fuzzy scan. -/
def stepContainersOf (doc : NodeList) : List Node :=
  firstNonempty
    [findAllDoc (tagCls "div" "step") doc,
     findAllDoc (tagCls "article" "step") doc,
     findAllDoc (tagCls "section" "step") doc,
     findAllDoc (tagCls "div" "step-body") doc,
     findAllDoc (tagAttrPresent "div" "data-step") doc,
     findAllDoc (tagCls "li" "step") doc,
     findAllDoc (clsAttrHas "step") doc,
     findAllDoc (idAttrHas "step") doc,
     findAllDoc (tagCls "div" "step") doc,
     findAllDoc (tagCls "article" "step") doc,
     findAllDoc (tagCls "section" "step") doc,
     findAllDoc (tagCls "div" "step-body") doc,
     findAllDoc (tagAttrPresent "div" "data-step") doc,
     findAllDoc (tagCls "li" "step") doc,
     fuzzyStepNodes doc]

/-! ### Container-mode step text (crawler.py, lines 278–326) -/

/-- The six specific text selectors tried before the all-paragraphs
special case. -/
def textSelList : List (String × String) :=
  [("div", "step-body"), ("div", "step-text"), ("div", "step-body-text"),
   ("div", "caption"), ("p", "step-body"), ("div", "content")]

/-- The break test of the specific-selector loop (`if text and
len(text.strip()) > 10`). -/
def textBreak (t : String) : Bool :=
  t ≠ "" && 10 < (pyStrip t).length

/-- The specific-selector loop: assigns on every hit (leaving stale
values behind on failed break tests) and stops on the first value
passing the break test. -/
def textChain (st : Node) (acc : String) : List (String × String) → String
  | [] => acc
  | (t, c) :: rest =>
      match findIn (tagCls t c) st with
      | none => textChain st acc rest
      | some d =>
          let tx := getText "" d
          if textBreak tx then tx else textChain st tx rest

/-- The all-paragraphs special case: paragraphs longer than 10
characters joined with spaces. -/
def combinedParas (st : Node) : String :=
  pyJoin " "
    (((findDesc (isTag "p") st).map (getText "")).filter
      (fun t => t ≠ "" && 10 < t.length))

/-- Text after the whole selector loop: the specific-selector result if
it broke, else the combined paragraphs if non-empty, else the stale
specific-selector value. -/
def containerTextPre (st : Node) : String :=
  let t6 := textChain st "" textSelList
  if textBreak t6 then t6
  else
    let cb := combinedParas st
    if cb ≠ "" then cb else t6

/-- Navigation-like patterns excluded from the whole-container text
fallback (checked on the first 50 lowercased characters). -/
def exclPatterns : List String :=
  ["share", "like", "follow", "comment", "next", "previous", "step 1 of"]

/-- Whole-container text fallback (`step.get_text(separator=' ',
strip=True)` gated by length > 20 and the exclusion patterns). -/
def containerTextFull (st : Node) (t : String) : String :=
  if t = "" then
    let allT := getText " " st
    if allT ≠ "" ∧ 20 < allT.length ∧
        ¬ exclPatterns.any (fun pat => occursIn pat (pyTake 50 (pyLower allT))) then
      allT
    else t
  else t

/-- Final gate on a container's step text: stripped, longer than 15
characters, and not starting with a navigation token. -/
def stepTokens : List String :=
  ["step", "next", "previous", "share"]

/-- The final gate on one container's candidate text (crawler.py, lines
321–326): the stripped text, when longer than 15 characters and not
opening with a navigation token. -/
def stepGate (t : String) : Option String :=
  if t ≠ "" then
    if 15 < (pyStrip t).length ∧
        ¬ stepTokens.any (fun tok => pyStarts (pyLower (pyStrip t)) tok) then
      some (pyStrip t)
    else none
  else none

/-- The accepted step text of one container, if any. -/
def containerStepOf (st : Node) : Option String :=
  stepGate (containerTextFull st (containerTextPre st))

/-- Step texts of all containers, in order. -/
def containerSteps (containers : List Node) : List String :=
  containers.filterMap containerStepOf

/-! ### Image collection (crawler.py, lines 328–357 and 424–439) -/

/-- Decorative-image test: any keyword occurring in the lowercased
`str(class list)` or in the lowercased `alt` text. -/
def decorative (skips : List String) (img : Node) : Bool :=
  let clsStr := pyLower (pyStrList img.classesOf)
  let alt := pyLower (img.attrD "alt" "")
  skips.any (fun sk => occursIn sk clsStr || occursIn sk alt)

/-- Small-image filter: skip when both dimensions are present and the
first parseable one read is below 50 (`int` failures are swallowed by
the local `except`, letting the image through). -/
def dimSkip (img : Node) : Bool :=
  match firstTruthyAttr img ["width", "data-width"],
      firstTruthyAttr img ["height", "data-height"] with
  | some w, some h =>
      (match pyInt w with
       | none => false
       | some wi =>
           if wi < 50 then true
           else
             match pyInt h with
             | none => false
             | some hi => decide (hi < 50))
  | _, _ => false

/-- Source-attribute priority list of container mode. -/
def srcKeysC : List String :=
  ["src", "data-src", "data-lazy-src", "data-original", "data-url"]

/-- Source-attribute priority list of the body fallback. -/
def srcKeysF : List String :=
  ["src", "data-src", "data-lazy-src", "data-original"]

/-- Adding one container-mode image to the accumulated URL list:
decorative images are skipped, the source is resolved to an absolute
URL, duplicates are dropped, small images are dropped. -/
def addImgC (base : String) (urls : List String) (img : Node) : List String :=
  if decorative ["icon", "logo", "avatar", "button"] img then urls
  else
    match firstTruthyAttr img srcKeysC with
    | none => urls
    | some s =>
        if make_absolute_url s base ≠ "" ∧ make_absolute_url s base ∉ urls then
          (if dimSkip img then urls else urls ++ [make_absolute_url s base])
        else urls

/-- Adding one body-fallback image (the skip list also contains `ad`;
no dimension filter). -/
def addImgF (base : String) (urls : List String) (img : Node) : List String :=
  if decorative ["icon", "logo", "avatar", "button", "ad"] img then urls
  else
    match firstTruthyAttr img srcKeysF with
    | none => urls
    | some s =>
        if make_absolute_url s base ≠ "" ∧ make_absolute_url s base ∉ urls then
          urls ++ [make_absolute_url s base]
        else urls

/-- Image URLs of all containers, deduplicated across the whole loop. -/
def containerImages (base : String) (containers : List Node) : List String :=
  containers.foldl (fun urls st => (findDesc (isTag "img") st).foldl (addImgC base) urls) []

/-- Image URLs of the body-content fallback. -/
def bodyImages (base : String) (b : Node) : List String :=
  (findDesc (isTag "img") b).foldl (addImgF base) []

/-! ### Header-delimited fallback (crawler.py, lines 358–422) -/

/-- The body-content container tried when no step container matched:
`div.main-content`, `div.article-body`, `article.article`,
`div#content`, `div.steps`. -/
def bodyContentOf (doc : NodeList) : Option Node :=
  findFirstSel doc
    [tagCls "div" "main-content", tagCls "div" "article-body",
     tagCls "article" "article", tagId "div" "content",
     tagCls "div" "steps"]

/-- Heading-level test (`h2`, `h3`, `h4`). -/
def isHeading (t : String) : Bool :=
  t = "h2" || t = "h3" || t = "h4"

/-- The `string=` predicate of the header search: a single-string
heading whose text mentions `step` or is all digits. -/
def isStepHeader (n : Node) : Bool :=
  isHeading n.tagOf &&
    (match nodeString n with
     | some s => s ≠ "" && (occursIn "step" (pyLower s) || pyIsdigit (pyStrip s))
     | none => false)

mutual

/-- For every step header of a forest, in document order, the header
paired with its following siblings (`header.next_siblings`). -/
def sectionsNL : NodeList → List (Node × NodeList)
  | .nil => []
  | .cons n l =>
      (if isStepHeader n then [(n, l)] else []) ++ sectionsInNode n ++ sectionsNL l

/-- Step-header sections inside one node's subtree. -/
def sectionsInNode : Node → List (Node × NodeList)
  | .text _ => []
  | .elem _ _ _ _ cs => sectionsNL cs

end

/-- Step-header sections of the body container. -/
def sectionsOf (b : Node) : List (Node × NodeList) :=
  sectionsNL b.childrenOf

/-- Content collected from the siblings following a header, stopping at
the next `h2`/`h3`/`h4`: stripped non-empty raw strings, and texts of
`p`, `div` and `section` elements longer than 15 characters. -/
def sectionContent : NodeList → List String
  | .nil => []
  | .cons (.text s) l =>
      (if pyStrip s ≠ "" then [pyStrip s] else []) ++ sectionContent l
  | .cons (.elem t c i a cs) l =>
      if isHeading t then []
      else
        (let nd := Node.elem t c i a cs
         let tx := getText "" nd
         if (t = "p" ∨ t = "div" ∨ t = "section") ∧ tx ≠ "" ∧ 15 < tx.length then [tx]
         else []) ++ sectionContent l

/-- The space-joined content of one section. -/
def sectionCombined (sec : NodeList) : String :=
  pyJoin " " (sectionContent sec)

/-- Steps produced by the header-delimited mode: one per header whose
section collected anything and whose combined text exceeds 20
characters. -/
def headerSteps (b : Node) : List String :=
  (sectionsOf b).filterMap
    (fun hs =>
      if sectionContent hs.2 ≠ [] ∧ 20 < (sectionCombined hs.2).length then
        some (sectionCombined hs.2)
      else none)

/-- Exclusion keywords of the paragraph fallback (checked on the first
100 lowercased characters). -/
def exclKeywordsFB : List String :=
  ["intro", "introduction", "overview", "summary", "conclusion",
   "thanks", "share", "like", "follow", "subscribe", "comment"]

/-- Action words whose presence lets a paragraph count as a step. -/
def actionWords : List String :=
  ["cut", "glue", "attach", "place", "install", "apply",
   "measure", "mark", "connect", "mount", "prepare", "build"]

/-- Steps produced by the paragraph fallback: paragraphs longer than 30
characters, not opening with an exclusion keyword, containing an
action word or longer than 100 characters. -/
def paraSteps (b : Node) : List String :=
  ((findDesc (isTag "p") b).map (getText "")).filterMap
    (fun t =>
      if t ≠ "" ∧ 30 < t.length ∧
          ¬ exclKeywordsFB.any (fun k => occursIn k (pyTake 100 (pyLower t))) ∧
          (actionWords.any (fun w => occursIn w (pyLower t)) ∨ 100 < t.length) then
        some t
      else none)

/-! ### Steps-and-images orchestration (crawler.py, lines 224–439) -/

/-- The steps/images extraction: container mode when any container
matched, otherwise the body-content fallback (header-delimited steps,
then the paragraph fallback when those produced nothing, plus the
body-level image scan); no body container yields nothing. -/
def extractStepsImages (doc : NodeList) (base : String) : List String × List String :=
  if ¬ (stepContainersOf doc).isEmpty then
    (containerSteps (stepContainersOf doc), containerImages base (stepContainersOf doc))
  else
    match bodyContentOf doc with
    | none => ([], [])
    | some b =>
        ((if headerSteps b = [] then paraSteps b else headerSteps b), bodyImages base b)

/-! ### Pipeline assembly (crawler.py, lines 139–470) -/

/-- The record assembled from the extracted fields after the final
cleanup filters (crawler.py, lines 452–463). -/
def assembleRecord (doc : NodeList) (base : String) : GuideData :=
  { title := extractTitle doc
    author := extractAuthor doc
    supplies := (extractSupplies doc).filter (fun s => s ≠ "" ∧ 0 < (pyStrip s).length)
    steps := (extractStepsImages doc base).1.filter
      (fun s => s ≠ "" ∧ 0 < (pyStrip s).length)
    image_urls := (extractStepsImages doc base).2.filter
      (fun u => u ≠ "" ∧ (pyStarts u "http://" ∨ pyStarts u "https://")) }

/-- The body of `parse_html` after the `BeautifulSoup` parse: all
fields extracted, the no-content rejection applied to the extracted
(pre-filter) lists, then the final cleanup filters and the record. -/
def parseHtmlBody (doc : NodeList) (base : String) : Option GuideData :=
  if (extractStepsImages doc base).1 = [] ∧ (extractStepsImages doc base).2 = [] then
    none
  else some (assembleRecord doc base)

/-- Python-level errors a strategy body could raise. -/
inductive PyError where
  | exn (msg : String)

/-- The `try`/`except Exception` wrapper of `parse_html` (crawler.py,
lines 148 and 468–470): a normal result is passed through, any escaping
error collapses to `None` for this document. -/
def tryExceptAll (r : Except PyError (Option GuideData)) : Option GuideData :=
  match r with
  | .ok v => v
  | .error _ => none

/-- Embedding of `parse_html`: the whole body runs under the
`except Exception` handler.  In this embedding the body is total —
every Python partial operation it performs (the `int` conversions) is
guarded by its own local handler — so the wrapped computation always
reaches `ok`. -/
def parse_html (doc : NodeList) (base : String) : Option GuideData :=
  tryExceptAll (Except.ok (parseHtmlBody doc base))

/-- The batch loop of `main` (crawler.py, lines 116–133), restricted to
its parsing step: each already-fetched document is parsed on its own. -/
def processBatch (docs : List NodeList) (base : String) : List (Option GuideData) :=
  docs.map (fun d => parse_html d base)

/-! ### Site-Profile layer -/

/-- Rejection taxonomy of the extraction pipeline (spec §7). -/
inductive Rejection where
  | noTitle
  | titleFilterMismatch
  | noStepsNoImages
  | parseFailure
deriving DecidableEq

/-- Modelled from the spec: the Site Profile configuration value object
(§2, §3), reduced to the one field the profile-dependent claims need —
the optional required-title rule, absent from src/ where `parse_html`
takes no profile argument. -/
structure SiteProfile where
  titleRule : Option String

/-- Case-insensitive starts-with test (the canonicalized title filter
of spec §9). -/
def startsWithCI (s p : String) : Bool :=
  pyStarts (pyLower s) (pyLower p)

/-- Whether a title passes the profile's required-title rule. -/
def titlePasses (profile : SiteProfile) (title : String) : Bool :=
  match profile.titleRule with
  | none => true
  | some p => startsWithCI title p

/-- Modelled from the spec: the profile-parameterized pipeline of §4.3,
absent from src/ (the source's `parse_html` has no profile and no
title-prefix gate).  All field extractors are the source-embedded
ones; after the fields are computed the pipeline rejects with
`TitleFilterMismatch` when the profile demands a title rule the
extracted title fails, rejects with `NoStepsNoImages` when both steps
and images are empty, and otherwise returns the record. -/
def extract (doc : NodeList) (base : String) (profile : SiteProfile) :
    Except Rejection GuideData :=
  if titlePasses profile (extractTitle doc) = false then .error .titleFilterMismatch
  else if (extractStepsImages doc base).1 = [] ∧ (extractStepsImages doc base).2 = [] then
    .error .noStepsNoImages
  else .ok (assembleRecord doc base)

/-- Canonical flat serialization of a record: every field rendered in
a fixed order; equal records serialize to identical strings. -/
def serializeGuide (g : GuideData) : String :=
  "title=" ++ g.title ++ ";author=" ++ g.author ++
  ";supplies=" ++ pyJoin "," g.supplies ++
  ";steps=" ++ pyJoin "," g.steps ++
  ";images=" ++ pyJoin "," g.image_urls

/-- Serialization of a pipeline result (`None` rendered distinctly). -/
def serializeResult : Option GuideData → String
  | none => "rejected"
  | some g => serializeGuide g

/-! ### Concrete documents used as witnesses and counterexamples -/

/-- A document with no title anywhere but one well-formed step
container. -/
def docNoTitle : NodeList :=
  NodeList.ofList
    [Node.el "div" ["step"] none []
      [Node.el "p" [] none []
        [Node.text "Attach the bracket to the wall with screws."]]]

/-- A titled document with one step container holding a paragraph and
a photo (plus a decorative icon that must be filtered out). -/
def docShelf : NodeList :=
  NodeList.ofList
    [Node.el "h1" [] none [] [Node.text "How to Build a Shelf"],
     Node.el "div" ["step"] none []
      [Node.el "p" [] none []
        [Node.text "Screw the shelf brackets into the studs."],
       Node.el "img" [] none [("src", "http://x.com/images/one.png")] [],
       Node.el "img" ["icon"] none [("src", "http://x.com/images/icon.png")] []]]

/-- The same page with a title that does not match the `how to` rule. -/
def docShelfOff : NodeList :=
  NodeList.ofList
    [Node.el "h1" [] none [] [Node.text "Building a Shelf"],
     Node.el "div" ["step"] none []
      [Node.el "p" [] none []
        [Node.text "Screw the shelf brackets into the studs."]]]

/-- A body-content area holding three bare `Step N` headers with no
section content at all. -/
def bareBody : Node :=
  Node.el "div" ["main-content"] none []
    [Node.el "h2" [] none [] [Node.text "Step 1"],
     Node.el "h2" [] none [] [Node.text "Step 2"],
     Node.el "h2" [] none [] [Node.text "Step 3"]]

/-- A document whose body matches the claim C5 antecedent (zero step
containers, exactly three `Step N` headers) with empty sections. -/
def docBareHeaders : NodeList :=
  NodeList.ofList [bareBody]

/-- A body-content area with three header-delimited sections, each with
a qualifying paragraph. -/
def bodyThree : Node :=
  Node.el "div" ["main-content"] none []
    [Node.el "h2" [] none [] [Node.text "Step 1"],
     Node.el "p" [] none [] [Node.text "Glue the first panel firmly."],
     Node.el "h2" [] none [] [Node.text "Step 2"],
     Node.el "p" [] none [] [Node.text "Screw the second panel tight."],
     Node.el "h2" [] none [] [Node.text "Step 3"],
     Node.el "p" [] none [] [Node.text "Paint everything with primer."]]

/-- A document with zero step containers and three header-delimited
sections. -/
def docThreeSteps : NodeList :=
  NodeList.ofList [bodyThree]

/-- The record `parse_html` produces on `docShelf`. -/
def shelfRecord : GuideData :=
  { title := "How to Build a Shelf", author := "Unknown Author", supplies := [],
    steps := ["Screw the shelf brackets into the studs."],
    image_urls := ["http://x.com/images/one.png"] }

/-- The record `parse_html` produces on `docShelfOff`. -/
def offRecord : GuideData :=
  { title := "Building a Shelf", author := "Unknown Author", supplies := [],
    steps := ["Screw the shelf brackets into the studs."], image_urls := [] }

/-! ### Helper lemmas -/

/-- A fold whose step either keeps the accumulator or appends one fresh
element preserves `Nodup`. -/
theorem foldl_nodup_of_fresh {α : Type} (f : List String → α → List String)
    (H : ∀ acc x, f acc x = acc ∨ ∃ u, u ∉ acc ∧ f acc x = acc ++ [u]) :
    ∀ (l : List α) (acc : List String), acc.Nodup → (l.foldl f acc).Nodup := by
  intro l
  induction l with
  | nil => intro acc h; simpa using h
  | cons x xs ih =>
      intro acc h
      rw [List.foldl_cons]
      apply ih
      rcases H acc x with h1 | ⟨u, hu, h2⟩
      · rw [h1]; exact h
      · rw [h2]
        simp [List.nodup_append, h, hu]

/-- The container-mode image step appends at most one fresh URL. -/
theorem addImgC_fresh (base : String) (acc : List String) (img : Node) :
    addImgC base acc img = acc ∨
      ∃ u, u ∉ acc ∧ addImgC base acc img = acc ++ [u] := by
  unfold addImgC
  split
  · exact Or.inl rfl
  · split
    · exact Or.inl rfl
    · rename_i s _
      by_cases hc : make_absolute_url s base ≠ "" ∧ make_absolute_url s base ∉ acc
      · rw [if_pos hc]
        split
        · exact Or.inl rfl
        · exact Or.inr ⟨make_absolute_url s base, hc.2, rfl⟩
      · rw [if_neg hc]
        exact Or.inl rfl

/-- The body-fallback image step appends at most one fresh URL. -/
theorem addImgF_fresh (base : String) (acc : List String) (img : Node) :
    addImgF base acc img = acc ∨
      ∃ u, u ∉ acc ∧ addImgF base acc img = acc ++ [u] := by
  unfold addImgF
  split
  · exact Or.inl rfl
  · split
    · exact Or.inl rfl
    · rename_i s _
      by_cases hc : make_absolute_url s base ≠ "" ∧ make_absolute_url s base ∉ acc
      · rw [if_pos hc]
        exact Or.inr ⟨make_absolute_url s base, hc.2, rfl⟩
      · rw [if_neg hc]
        exact Or.inl rfl

/-- Container-mode image lists carry no duplicates. -/
theorem containerImages_nodup (base : String) (containers : List Node) :
    (containerImages base containers).Nodup := by
  unfold containerImages
  have step : ∀ (acc : List String) (st : Node), acc.Nodup →
      ((findDesc (isTag "img") st).foldl (addImgC base) acc).Nodup := by
    intro acc st h
    exact foldl_nodup_of_fresh (addImgC base) (addImgC_fresh base) _ acc h
  have : ∀ (l : List Node) (acc : List String), acc.Nodup →
      (l.foldl (fun urls st => (findDesc (isTag "img") st).foldl (addImgC base) urls) acc).Nodup := by
    intro l
    induction l with
    | nil => intro acc h; simpa using h
    | cons x xs ih => intro acc h; rw [List.foldl_cons]; exact ih _ (step acc x h)
  exact this containers [] List.nodup_nil

/-- Body-fallback image lists carry no duplicates. -/
theorem bodyImages_nodup (base : String) (b : Node) :
    (bodyImages base b).Nodup := by
  unfold bodyImages
  exact foldl_nodup_of_fresh (addImgF base) (addImgF_fresh base) _ [] List.nodup_nil

/-- The image half of the extraction never repeats a URL. -/
theorem extractImages_nodup (doc : NodeList) (base : String) :
    (extractStepsImages doc base).2.Nodup := by
  unfold extractStepsImages
  split
  · exact containerImages_nodup base _
  · split
    · exact List.nodup_nil
    · exact bodyImages_nodup base _

/-- Every text passing the final container-step gate is longer than 15
characters and avoids the navigation-token openings. -/
theorem stepGate_spec {t s : String} (h : stepGate t = some s) :
    15 < s.length ∧ ¬ stepTokens.any (fun tok => pyStarts (pyLower s) tok) := by
  unfold stepGate at h
  split at h
  · split at h
    · rename_i hcond
      obtain rfl : _ = s := Option.some.inj h
      exact hcond
    · exact absurd h (by simp)
  · exact absurd h (by simp)

/-- Every accepted container-mode step text is longer than 15
characters and avoids the navigation-token openings. -/
theorem containerStepOf_spec {st : Node} {s : String}
    (h : containerStepOf st = some s) :
    15 < s.length ∧ ¬ stepTokens.any (fun tok => pyStarts (pyLower s) tok) :=
  stepGate_spec h

/-- Every header-mode step is longer than 20 characters. -/
theorem headerSteps_long {b : Node} {s : String} (h : s ∈ headerSteps b) :
    20 < s.length := by
  unfold headerSteps at h
  obtain ⟨sec, _, hsec⟩ := List.mem_filterMap.mp h
  split at hsec
  · rename_i hcond
    obtain rfl : _ = s := Option.some.inj hsec
    exact hcond.2
  · exact absurd hsec (by simp)

/-- Every paragraph-fallback step is longer than 30 characters. -/
theorem paraSteps_long {b : Node} {s : String} (h : s ∈ paraSteps b) :
    30 < s.length := by
  unfold paraSteps at h
  obtain ⟨t, _, ht⟩ := List.mem_filterMap.mp h
  split at ht
  · rename_i hcond
    obtain rfl : t = s := Option.some.inj ht
    exact hcond.2.1
  · exact absurd ht (by simp)

/-- Every extracted step text is longer than 15 characters. -/
theorem extractSteps_long {doc : NodeList} {base : String} {s : String}
    (h : s ∈ (extractStepsImages doc base).1) : 15 < s.length := by
  unfold extractStepsImages at h
  split at h
  · obtain ⟨st, _, hst⟩ := List.mem_filterMap.mp h
    exact (containerStepOf_spec hst).1
  · split at h
    · exact absurd h (by simp)
    · rename_i b _
      replace h : s ∈ (if headerSteps b = [] then paraSteps b else headerSteps b) := h
      split at h
      · exact Nat.lt_trans (by norm_num) (paraSteps_long h)
      · exact Nat.lt_trans (by norm_num) (headerSteps_long h)

/-- Destructing an accepted `parse_html` run: the record is the
assembled record, and the extracted lists were not both empty. -/
theorem parse_html_some {doc : NodeList} {base : String} {g : GuideData}
    (h : parse_html doc base = some g) :
    g = assembleRecord doc base ∧
      ¬ ((extractStepsImages doc base).1 = [] ∧ (extractStepsImages doc base).2 = []) := by
  replace h : parseHtmlBody doc base = some g := h
  unfold parseHtmlBody at h
  split at h
  · exact absurd h (by simp)
  · rename_i hne
    exact ⟨(Option.some.inj h).symm, hne⟩

/-! ### Claim theorems -/

/-- C1: under a profile with a required title rule, every record the
pipeline accepts has a title that case-insensitively starts with the
rule's text, and a document whose extracted title fails the rule is
rejected with `TitleFilterMismatch`. -/
theorem c1_title_filter (doc : NodeList) (base : String) (profile : SiteProfile)
    (p : String) (hp : profile.titleRule = some p) :
    (∀ rec : GuideData, extract doc base profile = .ok rec →
        startsWithCI rec.title p = true) ∧
      (startsWithCI (extractTitle doc) p = false →
        extract doc base profile = .error .titleFilterMismatch) := by
  constructor
  · intro rec hrec
    unfold extract at hrec
    split at hrec
    · exact absurd hrec (by simp)
    · rename_i hpass
      split at hrec
      · exact absurd hrec (by simp)
      · have hr : assembleRecord doc base = rec := by
          injection hrec
        have ht : rec.title = extractTitle doc := by
          rw [← hr]; rfl
        rw [ht]
        simp only [titlePasses, hp] at hpass
        exact Bool.eq_true_of_not_eq_false hpass
  · intro hfail
    unfold extract
    rw [if_pos]
    simp only [titlePasses, hp]
    exact hfail

/-- Witness for C1: the shelf page with the off-rule title is rejected
with `TitleFilterMismatch` under the `how to` profile. -/
theorem c1_title_filter_witness :
    (SiteProfile.mk (some "how to")).titleRule = some "how to" ∧
      startsWithCI (extractTitle docShelfOff) "how to" = false ∧
      extract docShelfOff "https://x.com/a" (SiteProfile.mk (some "how to")) =
        .error .titleFilterMismatch :=
  ⟨rfl, by decide,
    (c1_title_filter docShelfOff "https://x.com/a" (SiteProfile.mk (some "how to"))
      "how to" rfl).2 (by decide)⟩

/-- C2: when both extracted lists are empty the pipeline returns the
`None` rejection (the spec's `NoStepsNoImages` outcome); in every other
case it returns the assembled record. -/
theorem c2_no_steps_no_images (doc : NodeList) (base : String) :
    ((extractStepsImages doc base).1 = [] ∧ (extractStepsImages doc base).2 = [] →
        parse_html doc base = none) ∧
      (¬ ((extractStepsImages doc base).1 = [] ∧ (extractStepsImages doc base).2 = []) →
        parse_html doc base = some (assembleRecord doc base)) := by
  constructor
  · intro h
    show parseHtmlBody doc base = none
    unfold parseHtmlBody
    rw [if_pos h]
  · intro h
    show parseHtmlBody doc base = some (assembleRecord doc base)
    unfold parseHtmlBody
    rw [if_neg h]

/-- Witness for C2: the empty document is rejected. -/
theorem c2_no_steps_no_images_witness :
    parse_html NodeList.nil "https://x.com/a" = none :=
  (c2_no_steps_no_images NodeList.nil "https://x.com/a").1 ⟨rfl, rfl⟩

/-- Counterexample to C3: on a document where no title strategy yields a
value but a step container exists, `parse_html` returns a record with
the sentinel title instead of rejecting the document. -/
theorem c3_counterexample :
    extractTitle docNoTitle = "Unknown Title" ∧
      parse_html docNoTitle "https://x.com/a" =
        some
          { title := "Unknown Title", author := "Unknown Author", supplies := [],
            steps := ["Attach the bracket to the wall with screws."],
            image_urls := [] } :=
  ⟨by decide, by decide⟩

/-- C3 as amended: when no title strategy yields an accepted value the
title degrades to the sentinel `"Unknown Title"` exactly like the other
soft fields, and the document is still accepted whenever the extracted
steps or images are non-empty; there is no `NoTitle` rejection. -/
theorem c3_sentinel_title (doc : NodeList) (base : String)
    (h1 : extractTitle doc = "Unknown Title")
    (h2 : ¬ ((extractStepsImages doc base).1 = [] ∧ (extractStepsImages doc base).2 = [])) :
    parse_html doc base = some (assembleRecord doc base) ∧
      (assembleRecord doc base).title = "Unknown Title" := by
  constructor
  · show parseHtmlBody doc base = some (assembleRecord doc base)
    unfold parseHtmlBody
    rw [if_neg h2]
  · show extractTitle doc = "Unknown Title"
    exact h1

/-- Witness for C3's amended statement on the concrete titleless
document. -/
theorem c3_sentinel_title_witness :
    parse_html docNoTitle "https://x.com/a" =
        some (assembleRecord docNoTitle "https://x.com/a") ∧
      (assembleRecord docNoTitle "https://x.com/a").title = "Unknown Title" :=
  c3_sentinel_title docNoTitle "https://x.com/a" (by decide) (by decide)

/-- C4: the image URLs of every accepted record are pairwise distinct
and each starts with the `http://` or `https://` scheme. -/
theorem c4_image_invariants (doc : NodeList) (base : String) (g : GuideData)
    (h : parse_html doc base = some g) :
    g.image_urls.Nodup ∧
      ∀ u ∈ g.image_urls, pyStarts u "http://" = true ∨ pyStarts u "https://" = true := by
  obtain ⟨rfl, -⟩ := parse_html_some h
  constructor
  · exact (extractImages_nodup doc base).filter _
  · intro u hu
    simp only [assembleRecord] at hu
    have := (List.mem_filter.mp hu).2
    simp only [decide_eq_true_eq] at this
    exact this.2

/-- Witness for C4 on the shelf page with one photo and one filtered
icon. -/
theorem c4_image_invariants_witness :
    parse_html docShelf "https://x.com/a" = some shelfRecord ∧
      shelfRecord.image_urls.Nodup ∧
      (pyStarts "http://x.com/images/one.png" "http://" = true ∨
        pyStarts "http://x.com/images/one.png" "https://" = true) :=
  ⟨by decide,
    (c4_image_invariants docShelf "https://x.com/a" shelfRecord (by decide)).1,
    (c4_image_invariants docShelf "https://x.com/a" shelfRecord (by decide)).2
      "http://x.com/images/one.png" (by decide)⟩

/-- Counterexample to C5: a document with zero step containers whose
body contains exactly three headings matching `Step 1`, `Step 2`,
`Step 3` — but with empty sections — yields zero step entries, not
three. -/
theorem c5_counterexample :
    (stepContainersOf docBareHeaders).isEmpty = true ∧
      bodyContentOf docBareHeaders = some bareBody ∧
      (sectionsOf bareBody).map (fun hs => nodeString hs.1) =
        [some "Step 1", some "Step 2", some "Step 3"] ∧
      (extractStepsImages docBareHeaders "https://x.com/a").1 = [] :=
  ⟨by decide, rfl, by decide, by decide⟩

/-- C5 as amended: with zero step containers, a body container whose
step-header sections are exactly three, each collecting content whose
combined text exceeds 20 characters, the fallback yields exactly the
three combined texts in document order; and the fallback is entered
only when container mode finds zero containers. -/
theorem c5_fallback_three_steps (doc : NodeList) (base : String)
    (b hn1 hn2 hn3 : Node) (s1 s2 s3 : NodeList)
    (hc : (stepContainersOf doc).isEmpty = true)
    (hb : bodyContentOf doc = some b)
    (hs : sectionsOf b = [(hn1, s1), (hn2, s2), (hn3, s3)])
    (g1 : sectionContent s1 ≠ [] ∧ 20 < (sectionCombined s1).length)
    (g2 : sectionContent s2 ≠ [] ∧ 20 < (sectionCombined s2).length)
    (g3 : sectionContent s3 ≠ [] ∧ 20 < (sectionCombined s3).length) :
    (extractStepsImages doc base).1 =
        [sectionCombined s1, sectionCombined s2, sectionCombined s3] ∧
      ∀ doc2 : NodeList, ¬ (stepContainersOf doc2).isEmpty = true →
        extractStepsImages doc2 base =
          (containerSteps (stepContainersOf doc2),
            containerImages base (stepContainersOf doc2)) := by
  have hsteps : headerSteps b =
      [sectionCombined s1, sectionCombined s2, sectionCombined s3] := by
    unfold headerSteps
    rw [hs]
    simp only [List.filterMap_cons, List.filterMap_nil]
    rw [if_pos g1, if_pos g2, if_pos g3]
  constructor
  · unfold extractStepsImages
    rw [if_neg (fun hcon => hcon hc), hb]
    simp only
    rw [hsteps, if_neg (by simp)]
  · intro doc2 hc2
    unfold extractStepsImages
    rw [if_pos hc2]

/-- Witness for C5's amended statement on the three-section document. -/
theorem c5_fallback_three_steps_witness :
    (extractStepsImages docThreeSteps "https://x.com/a").1 =
      ["Glue the first panel firmly.", "Screw the second panel tight.",
       "Paint everything with primer."] := by
  have h := (c5_fallback_three_steps docThreeSteps "https://x.com/a" bodyThree
    _ _ _ _ _ _ (by decide) rfl rfl (by decide) (by decide) (by decide)).1
  rw [h]
  decide

/-- C6: every step body of an accepted record is longer than the
configured minimum of 15 characters (the stricter fallback paths
enforce 20 and 30). -/
theorem c6_step_lengths (doc : NodeList) (base : String) (g : GuideData)
    (h : parse_html doc base = some g) :
    ∀ s ∈ g.steps, 15 < s.length := by
  obtain ⟨rfl, -⟩ := parse_html_some h
  intro s hs
  simp only [assembleRecord] at hs
  exact extractSteps_long (List.mem_filter.mp hs).1

/-- Witness for C6 on the shelf page. -/
theorem c6_step_lengths_witness :
    parse_html docShelf "https://x.com/a" = some shelfRecord ∧
      15 < ("Screw the shelf brackets into the studs." : String).length :=
  ⟨by decide,
    c6_step_lengths docShelf "https://x.com/a" shelfRecord (by decide)
      "Screw the shelf brackets into the studs." (by decide)⟩

/-- Counterexample to C7: `make_absolute_url` returns an `ftp` URL
unchanged — it performs no scheme filtering at all. -/
theorem c7_counterexample :
    make_absolute_url "ftp://files.example.com/a.zip" "https://x.com/guide" =
        "ftp://files.example.com/a.zip" ∧
      pyStarts "ftp://files.example.com/a.zip" "http://" = false ∧
      pyStarts "ftp://files.example.com/a.zip" "https://" = false := by
  decide

/-- C7 as amended: `make_absolute_url` performs no scheme filtering —
any non-empty URL that already carries a network location is returned
unchanged regardless of scheme, scheme-only URLs such as `javascript:`
also pass through, and relative URLs are resolved against the base;
the `http(s)`-only filtering happens later in `parse_html`'s final
image filter. -/
theorem c7_resolver_no_scheme_filter (url base : String)
    (h : url ≠ "") (hn : pyNetloc url ≠ "") :
    make_absolute_url url base = url ∧
      make_absolute_url "/img/a.png" "https://x.com/guide" = "https://x.com/img/a.png" ∧
      make_absolute_url "javascript:alert(1)" "https://x.com/guide" =
        "javascript:alert(1)" := by
  refine ⟨?_, by decide, by decide⟩
  unfold make_absolute_url
  rw [if_neg h, if_pos hn]

/-- Witness for C7's amended statement at the `ftp` URL. -/
theorem c7_resolver_no_scheme_filter_witness :
    make_absolute_url "ftp://a.example.com/f.zip" "https://x.com/guide" =
        "ftp://a.example.com/f.zip" ∧
      make_absolute_url "/img/a.png" "https://x.com/guide" = "https://x.com/img/a.png" ∧
      make_absolute_url "javascript:alert(1)" "https://x.com/guide" =
        "javascript:alert(1)" :=
  c7_resolver_no_scheme_filter "ftp://a.example.com/f.zip" "https://x.com/guide"
    (by decide) (by decide)

/-- C8: the pipeline never lets an error escape to its caller — the
`except Exception` wrapper turns any escaping error into the `None`
outcome for that document, `parse_html` is exactly that wrapper around
its (total) body, and one document's outcome never affects any other
document of a batch. -/
theorem c8_no_escape :
    (∀ r : Except PyError (Option GuideData),
        (∃ e, r = .error e) → tryExceptAll r = none) ∧
      (∀ (doc : NodeList) (base : String),
        parse_html doc base = tryExceptAll (Except.ok (parseHtmlBody doc base))) ∧
      (∀ (pre post : List NodeList) (d : NodeList) (base : String),
        processBatch (pre ++ d :: post) base =
          processBatch pre base ++ parse_html d base :: processBatch post base) := by
  refine ⟨?_, fun _ _ => rfl, ?_⟩
  · rintro r ⟨e, rfl⟩
    rfl
  · intro pre post d base
    unfold processBatch
    simp

/-- Witness for C8: a concrete escaping error collapses to `None`. -/
theorem c8_no_escape_witness :
    tryExceptAll (Except.error (PyError.exn "boom")) = none :=
  c8_no_escape.1 (Except.error (PyError.exn "boom")) ⟨PyError.exn "boom", rfl⟩

/-- C9: extraction is deterministic and idempotent — identical inputs
produce identical results and identical serialized output. -/
theorem c9_deterministic (h1 h2 : NodeList) (b1 b2 : String)
    (hh : h1 = h2) (hb : b1 = b2) :
    parse_html h1 b1 = parse_html h2 b2 ∧
      serializeResult (parse_html h1 b1) = serializeResult (parse_html h2 b2) := by
  subst hh
  subst hb
  exact ⟨rfl, rfl⟩

/-- Witness for C9 on the shelf page. -/
theorem c9_deterministic_witness :
    parse_html docShelf "https://x.com/a" = parse_html docShelf "https://x.com/a" ∧
      serializeResult (parse_html docShelf "https://x.com/a") =
        serializeResult (parse_html docShelf "https://x.com/a") :=
  c9_deterministic docShelf docShelf "https://x.com/a" "https://x.com/a" rfl rfl

/-- C10: in container mode, no accepted step body opens
(case-insensitively) with `step`, `next`, `previous` or `share`. -/
theorem c10_no_nav_openings (doc : NodeList) (base : String) (g : GuideData)
    (h : parse_html doc base = some g)
    (hc : ¬ (stepContainersOf doc).isEmpty = true) :
    ∀ s ∈ g.steps,
      pyStarts (pyLower s) "step" = false ∧ pyStarts (pyLower s) "next" = false ∧
        pyStarts (pyLower s) "previous" = false ∧ pyStarts (pyLower s) "share" = false := by
  obtain ⟨rfl, -⟩ := parse_html_some h
  intro s hs
  simp only [assembleRecord] at hs
  have hs1 : s ∈ (extractStepsImages doc base).1 := (List.mem_filter.mp hs).1
  unfold extractStepsImages at hs1
  rw [if_pos hc] at hs1
  obtain ⟨st, _, hst⟩ := List.mem_filterMap.mp hs1
  have h2 := (containerStepOf_spec hst).2
  simp only [stepTokens, List.any_cons, List.any_nil, Bool.or_eq_true,
    Bool.or_false, not_or] at h2
  exact ⟨Bool.not_eq_true _ ▸ Bool.eq_false_iff.mpr h2.1,
    Bool.eq_false_iff.mpr h2.2.1, Bool.eq_false_iff.mpr h2.2.2.1,
    Bool.eq_false_iff.mpr h2.2.2.2⟩

/-- Witness for C10 on the off-title shelf page (container mode). -/
theorem c10_no_nav_openings_witness :
    parse_html docShelfOff "https://x.com/a" = some offRecord ∧
      (pyStarts (pyLower "Screw the shelf brackets into the studs.") "step" = false ∧
        pyStarts (pyLower "Screw the shelf brackets into the studs.") "next" = false ∧
        pyStarts (pyLower "Screw the shelf brackets into the studs.") "previous" = false ∧
        pyStarts (pyLower "Screw the shelf brackets into the studs.") "share" = false) :=
  ⟨by decide,
    c10_no_nav_openings docShelfOff "https://x.com/a" offRecord (by decide) (by decide)
      "Screw the shelf brackets into the studs." (by decide)⟩

end Crawler
